import Mathlib

/-!
Verification development for the `proyecto-reservas` Telegram reservation bot
(`main.py`). The conversation engine, session store and per-tenant
configuration lookup are embedded as pure Lean functions; the outbound
Telegram calls are modelled by an explicit delivery oracle, and exceptions of
the Python code become `Except` values.
-/

namespace Reservas

/-! ## Python string primitives

`String` in this Lean version is a structure over `List Char`, so the Python
string operations used by `main.py` (`strip`, `lower`, `upper`) are embedded
as structural functions on the character list.  `str.lower`/`str.upper` are
restricted to ASCII plus the accented letter of the affirmative token
"sí", the only non-ASCII letter the program ever case-maps. -/

def isPySpace (c : Char) : Bool :=
  c = ' ' || c = '\t' || c = '\n' || c = '\r' || c = '\x0b' || c = '\x0c'

def pyStrip (s : String) : String :=
  ⟨((s.data.dropWhile isPySpace).reverse.dropWhile isPySpace).reverse⟩

def pyLowerChar (c : Char) : Char :=
  if 'A' ≤ c && c ≤ 'Z' then Char.ofNat (c.toNat + 32)
  else if c = 'Í' then 'í'
  else c

def pyUpperChar (c : Char) : Char :=
  if 'a' ≤ c && c ≤ 'z' then Char.ofNat (c.toNat - 32)
  else if c = 'í' then 'Í'
  else c

def pyLower (s : String) : String := ⟨s.data.map pyLowerChar⟩

def pyUpper (s : String) : String := ⟨s.data.map pyUpperChar⟩

/-- Python `int(s)` on an already-stripped string: optional sign followed by
digits (`main.py` only parses the admin chat id this way). -/
def parseIntPy (s : String) : Option Int :=
  let digitsVal : List Char → Int :=
    fun cs => (cs.foldl (fun n c => n * 10 + (c.toNat - 48)) 0 : Nat)
  match s.data with
  | [] => none
  | '-' :: cs => if !cs.isEmpty && cs.all Char.isDigit then some (-(digitsVal cs)) else none
  | '+' :: cs => if !cs.isEmpty && cs.all Char.isDigit then some (digitsVal cs) else none
  | cs => if cs.all Char.isDigit then some (digitsVal cs) else none

/-! ## Button labels (module constants of `main.py`) -/

def BTN_MENU : String := "📄 Ver menú"
def BTN_FAQ : String := "❓ Preguntas frecuentes"
def BTN_RESERVAR : String := "📅 Reservar"
def BTN_AGENT : String := "👤 Hablar con alguien"
def BTN_CANCEL : String := "✖️ Cancelar"

/-- The texts intercepted before stage dispatch, in the order `handle_update`
tests them. -/
def command_tokens : List String :=
  ["/start", BTN_MENU, BTN_FAQ, BTN_AGENT, BTN_RESERVAR, BTN_CANCEL]

/-! ## Data model

The session dict `{"step": str, "data": dict}` becomes a structure; the
`data` dict only ever receives the five reservation keys, so it is embedded
as a record of optional strings (`none` = key absent).  The source indexes
`data` directly (`data['date']`) presupposing presence; the embedding
totalizes those lookups with `Option.getD ""`, and the reachability
invariant (`fieldsOk`) shows the default is never exercised. -/

structure FieldData where
  date : Option String := none
  time : Option String := none
  people : Option String := none
  name : Option String := none
  phone : Option String := none
deriving DecidableEq

structure Session where
  step : String
  data : FieldData
deriving DecidableEq

abbrev SessionKey := String × Int

/-- The global `SESSIONS` dict, keyed by `(tenant, chat_id)`. -/
abbrev Sessions := SessionKey → Option Session

def emptySessions : Sessions := fun _ => none

def session_key (tenant : String) (chatId : Int) : SessionKey := (tenant, chatId)

def reset_session (tenant : String) (chatId : Int) (st : Sessions) : Sessions :=
  fun k => if k = session_key tenant chatId then none else st k

def get_session (tenant : String) (chatId : Int) (st : Sessions) : Option Session :=
  st (session_key tenant chatId)

def set_session (tenant : String) (chatId : Int) (step : String) (data : FieldData)
    (st : Sessions) : Sessions :=
  fun k => if k = session_key tenant chatId then some ⟨step, data⟩ else st k

/-! ## Tenant configuration -/

structure Cfg where
  tenant : String
  token : String
  webhookSecret : String
  menuPdfUrl : String
  faqText : String
  adminChatId : String
deriving DecidableEq

/-- The process environment: a partial map from variable name to value. -/
abbrev Env := String → Option String

/-- Python `os.getenv(name, default)`. -/
def osGetenv (env : Env) (name default : String) : String :=
  (env name).getD default

/-- `get_env` of `main.py`: tenant-specific variable first, plain variable as
fallback, then the given default; the result is stripped. -/
def get_env (env : Env) (name tenant : String) (default : String := "") : String :=
  pyStrip (osGetenv env (name ++ "_" ++ pyUpper tenant) (osGetenv env name default))

/-- `tenant_config` of `main.py`. -/
def tenant_config (env : Env) (tenant : String) : Cfg :=
  let t := pyUpper tenant
  { tenant := tenant
  , token := get_env env "TELEGRAM_BOT_TOKEN" t
  , webhookSecret := get_env env "WEBHOOK_SECRET" t
  , menuPdfUrl := get_env env "MENU_PDF_URL" t
  , faqText := get_env env "FAQ_TEXT" t "Aún no se configuró el FAQ."
  , adminChatId := get_env env "ADMIN_CHAT_ID" t }

/-! ## Outbound actions produced by the engine

Keyboards are embedded by their button-label rows. -/

def main_keyboard : List (List String) :=
  [[BTN_MENU, BTN_FAQ], [BTN_RESERVAR, BTN_AGENT]]

def reservation_keyboard : List (List String) := [[BTN_CANCEL]]

inductive Action where
  | sendMessage (chatId : Int) (text : String) (keyboard : Option (List (List String)))
  | sendDocument (chatId : Int) (document : String) (caption : String)
  | notifyAdmin (text : String)
deriving DecidableEq

def is_notify (a : Action) : Bool :=
  match a with
  | .notifyAdmin _ => true
  | _ => false

def startText : String := "¡Hola! 👋 Soy el bot de reservas.\nElige una opción:"

/-- The confirmation summary built in the `ASK_PHONE` branch. -/
def resumen (d : FieldData) : String :=
  "Confirma tu reserva:\n📅 Fecha: " ++ d.date.getD "" ++
  "\n🕒 Hora: " ++ d.time.getD "" ++
  "\n👥 Personas: " ++ d.people.getD "" ++
  "\n👤 Nombre: " ++ d.name.getD "" ++
  "\n📞 Tel: " ++ d.phone.getD "" ++
  "\n\nResponde: SI o NO"

/-- The admin notification text of the `CONFIRM` affirmative branch. -/
def adminReservaText (tenant : String) (d : FieldData) : String :=
  "✅ Nueva reserva [" ++ pyUpper tenant ++ "]\n" ++
  d.date.getD "" ++ " " ++ d.time.getD "" ++ " - " ++ d.people.getD "" ++
  " pax\nNombre: " ++ d.name.getD "" ++ " - Tel: " ++ d.phone.getD ""

/-! ## The conversation engine

`stage_dispatch` embeds lines 253-311 of `main.py` (the chained conditionals
on the session's `step` string, with the final fallback), and `handle_update`
the whole message handler after JSON extraction and webhook-secret
validation (those belong to the gateway).  Each `send_message` /
`send_document` / `notify_admin` call site becomes an emitted `Action`; the
dispatch of those actions is modelled separately below. -/

def stage_dispatch (tenant : String) (chatId : Int) (text : String) (s : Session)
    (st : Sessions) : Sessions × List Action :=
  if s.step = "ASK_DATE" then
    (set_session tenant chatId "ASK_TIME" { s.data with date := some text } st,
     [.sendMessage chatId "¿A qué hora? (ej: 19:30)" (some reservation_keyboard)])
  else if s.step = "ASK_TIME" then
    (set_session tenant chatId "ASK_PEOPLE" { s.data with time := some text } st,
     [.sendMessage chatId "¿Para cuántas personas?" (some reservation_keyboard)])
  else if s.step = "ASK_PEOPLE" then
    (set_session tenant chatId "ASK_NAME" { s.data with people := some text } st,
     [.sendMessage chatId "¿A nombre de quién?" (some reservation_keyboard)])
  else if s.step = "ASK_NAME" then
    (set_session tenant chatId "ASK_PHONE" { s.data with name := some text } st,
     [.sendMessage chatId "¿Tu número de teléfono?" (some reservation_keyboard)])
  else if s.step = "ASK_PHONE" then
    (set_session tenant chatId "CONFIRM" { s.data with phone := some text } st,
     [.sendMessage chatId (resumen { s.data with phone := some text })
        (some reservation_keyboard)])
  else if s.step = "CONFIRM" then
    if pyLower (pyStrip text) = "si" ∨ pyLower (pyStrip text) = "sí" then
      (reset_session tenant chatId st,
       [.sendMessage chatId "✅ Reserva confirmada. ¡Gracias!" (some main_keyboard),
        .notifyAdmin (adminReservaText tenant s.data)])
    else
      (reset_session tenant chatId st,
       [.sendMessage chatId "Reserva no confirmada. Si deseas, vuelve a empezar."
          (some main_keyboard)])
  else
    (st, [.sendMessage chatId "Elige una opción:" (some main_keyboard)])

def handle_update (cfg : Cfg) (tenant : String) (chatId : Int) (rawText : String)
    (st : Sessions) : Sessions × List Action :=
  let text := pyStrip rawText
  if text = "/start" then
    (reset_session tenant chatId st,
     [.sendMessage chatId startText (some main_keyboard)])
  else if text = BTN_MENU then
    if cfg.menuPdfUrl = "" then
      (st, [.sendMessage chatId "Aún no está configurado el PDF del menú."
              (some main_keyboard)])
    else
      (st, [.sendDocument chatId cfg.menuPdfUrl "Aquí tienes el menú 📄",
            .sendMessage chatId "¿Deseas algo más?" (some main_keyboard)])
  else if text = BTN_FAQ then
    (st, [.sendMessage chatId cfg.faqText (some main_keyboard)])
  else if text = BTN_AGENT then
    (st, [.sendMessage chatId "Perfecto. Escribe tu mensaje y te contactará un encargado."
            (some main_keyboard),
          .notifyAdmin ("[" ++ pyUpper tenant ++
            "] Un cliente pidió hablar con alguien. ChatID: " ++ toString chatId)])
  else if text = BTN_RESERVAR then
    (set_session tenant chatId "ASK_DATE" {} st,
     [.sendMessage chatId "Perfecto. ¿Para qué fecha? (formato: YYYY-MM-DD)"
        (some reservation_keyboard)])
  else if text = BTN_CANCEL then
    (reset_session tenant chatId st,
     [.sendMessage chatId "Reserva cancelada. ¿Qué deseas hacer ahora?"
        (some main_keyboard)])
  else
    match get_session tenant chatId st with
    | none => (st, [.sendMessage chatId "Elige una opción:" (some main_keyboard)])
    | some s => stage_dispatch tenant chatId text s st

/-- Folds a sequence of inbound texts for one conversation through the
engine, accumulating the emitted actions. -/
def run_texts (cfg : Cfg) (tenant : String) (chatId : Int) (texts : List String)
    (st : Sessions) : Sessions × List Action :=
  texts.foldl (fun acc t =>
    let r := handle_update cfg tenant chatId t acc.1
    (r.1, acc.2 ++ r.2)) (st, [])

/-! ## Outbound delivery (best-effort dispatcher)

Exceptions of the Python code become `Except.error`; a `try/except` that
logs and continues becomes a function that maps the error into an `.ok`
result.  Network success/failure of each external call is an input of the
model (the `deliver` oracle). -/

inductive SendLog where
  | sent
  | logged (msg : String)
  | skipped
deriving DecidableEq

/-- `require_token` of `main.py`: raises when the tenant credential is empty. -/
def require_token (cfg : Cfg) : Except String Unit :=
  if cfg.token = "" then
    .error ("Missing TELEGRAM_BOT_TOKEN_" ++ pyUpper cfg.tenant)
  else .ok ()

/-- `telegram_api`: checks the credential, then performs the network call,
whose outcome the `deliver` oracle decides. -/
def telegram_api (deliver : Bool) (cfg : Cfg) : Except String Unit :=
  match require_token cfg with
  | .error e => .error e
  | .ok _ => if deliver then .ok () else .error "network error"

/-- `send_message`: the body's `try/except` converts every failure of
`telegram_api` into a log entry, so the function itself never raises. -/
def send_message (deliver : Bool) (cfg : Cfg) : Except String SendLog :=
  match telegram_api deliver cfg with
  | .ok _ => .ok .sent
  | .error e => .ok (.logged ("[ERROR] sendMessage (" ++ cfg.tenant ++ "): " ++ e))

/-- `send_document`: same catch-all structure as `send_message`. -/
def send_document (deliver : Bool) (cfg : Cfg) : Except String SendLog :=
  match telegram_api deliver cfg with
  | .ok _ => .ok .sent
  | .error e => .ok (.logged ("[ERROR] sendDocument (" ++ cfg.tenant ++ "): " ++ e))

/-- `notify_admin`: silently returns when no admin chat id is configured,
parses it as an int, and swallows every exception (`except: pass`). -/
def notify_admin (deliver : Bool) (cfg : Cfg) : Except String SendLog :=
  let a := pyStrip cfg.adminChatId
  if a = "" then .ok .skipped
  else
    match parseIntPy a with
    | none => .ok .skipped
    | some _ =>
      match send_message deliver cfg with
      | .ok r => .ok r
      | .error _ => .ok .skipped

def dispatch_action (deliver : Bool) (cfg : Cfg) (a : Action) : Except String SendLog :=
  match a with
  | .sendMessage _ _ _ => send_message deliver cfg
  | .sendDocument _ _ _ => send_document deliver cfg
  | .notifyAdmin _ => notify_admin deliver cfg

/-- Webhook-level handling of one update for a tenant: the engine decides the
session change and the action list, then each action is dispatched under the
delivery oracle (indexed per call).  The HTTP acknowledgment is the final
`Bool`, `true` exactly as `handle_update` returns `{"ok": True}`.  In the
source the sends are interleaved with the state writes, but since
`send_message`/`notify_admin` never raise, this is behaviourally the
compute-then-dispatch factoring below. -/
def webhook (env : Env) (deliver : Nat → Bool) (tenant : String) (chatId : Int)
    (rawText : String) (st : Sessions) : Sessions × List (Except String SendLog) × Bool :=
  let cfg := tenant_config env tenant
  let r := handle_update cfg tenant chatId rawText st
  (r.1, (r.2.enum.map (fun p => dispatch_action (deliver p.1) cfg p.2)), true)

/-! ## Spec-side helper vocabulary for the claims -/

/-- Modelled from the spec: the validation table of section 4.2 (AskDate:
length at least 8; AskTime: contains a colon; AskPeople: positive integer;
AskName: trimmed length at least 2; AskPhone: at least 6 characters after
removing whitespace).  The source has no validation code at all; this
predicate exists only to state the claims that quantify over valid or
invalid inputs. -/
def specValidInput (step : String) (t : String) : Bool :=
  if step = "ASK_DATE" then 8 ≤ t.data.length
  else if step = "ASK_TIME" then t.data.contains ':'
  else if step = "ASK_PEOPLE" then
    !t.data.isEmpty && t.data.all Char.isDigit && t.data.any (fun c => c != '0')
  else if step = "ASK_NAME" then 2 ≤ (pyStrip t).data.length
  else if step = "ASK_PHONE" then 6 ≤ (t.data.filter (fun c => !isPySpace c)).length
  else true

/-- The collecting stages, in flow order. -/
def flow_steps : List String :=
  ["ASK_DATE", "ASK_TIME", "ASK_PEOPLE", "ASK_NAME", "ASK_PHONE"]

/-- Successor in the fixed stage sequence. -/
def next_step (step : String) : String :=
  if step = "ASK_DATE" then "ASK_TIME"
  else if step = "ASK_TIME" then "ASK_PEOPLE"
  else if step = "ASK_PEOPLE" then "ASK_NAME"
  else if step = "ASK_NAME" then "ASK_PHONE"
  else if step = "ASK_PHONE" then "CONFIRM"
  else step

/-- The field each collecting stage stores the inbound text under. -/
def store_field (step : String) (d : FieldData) (t : String) : FieldData :=
  if step = "ASK_DATE" then { d with date := some t }
  else if step = "ASK_TIME" then { d with time := some t }
  else if step = "ASK_PEOPLE" then { d with people := some t }
  else if step = "ASK_NAME" then { d with name := some t }
  else if step = "ASK_PHONE" then { d with phone := some t }
  else d

/-- The single prompt emitted after a collecting stage stores its field
(`d` is the field set after storing; at `ASK_PHONE` the prompt is the
confirmation summary). -/
def stage_prompt (step : String) (chatId : Int) (d : FieldData) : Action :=
  if step = "ASK_DATE" then
    .sendMessage chatId "¿A qué hora? (ej: 19:30)" (some reservation_keyboard)
  else if step = "ASK_TIME" then
    .sendMessage chatId "¿Para cuántas personas?" (some reservation_keyboard)
  else if step = "ASK_PEOPLE" then
    .sendMessage chatId "¿A nombre de quién?" (some reservation_keyboard)
  else if step = "ASK_NAME" then
    .sendMessage chatId "¿Tu número de teléfono?" (some reservation_keyboard)
  else
    .sendMessage chatId (resumen d) (some reservation_keyboard)

/-- The per-stage shape of a well-formed session: the stage is one of the
six stage names and the field set holds exactly the fields of the stages
already completed. -/
def fieldsOk (s : Session) : Bool :=
  if s.step = "ASK_DATE" then
    s.data.date.isNone && s.data.time.isNone && s.data.people.isNone &&
      s.data.name.isNone && s.data.phone.isNone
  else if s.step = "ASK_TIME" then
    s.data.date.isSome && s.data.time.isNone && s.data.people.isNone &&
      s.data.name.isNone && s.data.phone.isNone
  else if s.step = "ASK_PEOPLE" then
    s.data.date.isSome && s.data.time.isSome && s.data.people.isNone &&
      s.data.name.isNone && s.data.phone.isNone
  else if s.step = "ASK_NAME" then
    s.data.date.isSome && s.data.time.isSome && s.data.people.isSome &&
      s.data.name.isNone && s.data.phone.isNone
  else if s.step = "ASK_PHONE" then
    s.data.date.isSome && s.data.time.isSome && s.data.people.isSome &&
      s.data.name.isSome && s.data.phone.isNone
  else if s.step = "CONFIRM" then
    s.data.date.isSome && s.data.time.isSome && s.data.people.isSome &&
      s.data.name.isSome && s.data.phone.isSome
  else false

/-- One inbound update, as needed to drive the engine. -/
structure Update where
  cfg : Cfg
  tenant : String
  chatId : Int
  text : String

/-- The session store after a sequence of updates against a fresh store. -/
def run_updates (us : List Update) : Sessions :=
  us.foldl (fun st u => (handle_update u.cfg u.tenant u.chatId u.text st).1) emptySessions

/-! ## Sanity evaluations of the embedding on concrete inputs -/

def cfgA : Cfg :=
  { tenant := "r1", token := "tok1", webhookSecret := "", menuPdfUrl := "https://example.com/menu.pdf"
  , faqText := "FAQ", adminChatId := "99" }

example : pyStrip "  bad " = "bad" := by decide
example : pyLower (pyStrip " SÍ ") = "sí" := by decide
example :
    get_session "r1" 1 ((handle_update cfgA "r1" 1 BTN_RESERVAR emptySessions).1)
      = some ⟨"ASK_DATE", {}⟩ := by decide
example :
    (run_texts cfgA "r1" 1 ["reservar", "bad"] emptySessions).1 (session_key "r1" 1)
      = none := by decide
example :
    ((run_texts cfgA "r1" 1
      ["reservar", "2026-01-10", "19:30", "4", "Ana", "+56911112222", "si"]
      emptySessions).2.filter is_notify) = [] := by decide
example :
    ((run_texts cfgA "r1" 1
      [BTN_RESERVAR, "2026-01-10", "19:30", "4", "Ana", "+56911112222", "si"]
      emptySessions).2.filter is_notify)
    = [.notifyAdmin "✅ Nueva reserva [R1]\n2026-01-10 19:30 - 4 pax\nNombre: Ana - Tel: +56911112222"] := by
  decide

/-! ## Shared helper lemmas -/

theorem get_set_same (tenant : String) (chatId : Int) (step : String) (d : FieldData)
    (st : Sessions) :
    get_session tenant chatId (set_session tenant chatId step d st) = some ⟨step, d⟩ := by
  simp [get_session, set_session, session_key]

theorem get_set_other (tenant : String) (chatId : Int) (step : String) (d : FieldData)
    (st : Sessions) (k : SessionKey) (h : k ≠ session_key tenant chatId) :
    set_session tenant chatId step d st k = st k := by
  simp [set_session, h]

theorem get_reset_other (tenant : String) (chatId : Int) (st : Sessions) (k : SessionKey)
    (h : k ≠ session_key tenant chatId) :
    reset_session tenant chatId st k = st k := by
  simp [reset_session, h]

/-- A text that is none of the six intercepted tokens reaches stage dispatch
(or the no-session menu prompt). -/
theorem handle_update_dispatch (cfg : Cfg) (tenant : String) (chatId : Int)
    (rawText : String) (st : Sessions) (h : pyStrip rawText ∉ command_tokens) :
    handle_update cfg tenant chatId rawText st =
      match get_session tenant chatId st with
      | none => (st, [.sendMessage chatId "Elige una opción:" (some main_keyboard)])
      | some s => stage_dispatch tenant chatId (pyStrip rawText) s st := by
  simp only [command_tokens, List.mem_cons, List.mem_singleton, not_or] at h
  obtain ⟨h1, h2, h3, h4, h5, h6, -⟩ := h
  simp only [handle_update, if_neg h1, if_neg h2, if_neg h3, if_neg h4, if_neg h5, if_neg h6]

/-- `handle_update` writes only at the key of the update's own conversation. -/
theorem handle_update_local (cfg : Cfg) (tenant : String) (chatId : Int)
    (rawText : String) (st : Sessions) (k : SessionKey)
    (h : k ≠ session_key tenant chatId) :
    (handle_update cfg tenant chatId rawText st).1 k = st k := by
  simp only [handle_update]
  split
  · exact get_reset_other _ _ _ _ h
  · split
    · split <;> rfl
    · split
      · rfl
      · split
        · rfl
        · split
          · exact get_set_other _ _ _ _ _ _ h
          · split
            · exact get_reset_other _ _ _ _ h
            · split
              · rfl
              · simp only [stage_dispatch]
                split
                · exact get_set_other _ _ _ _ _ _ h
                · split
                  · exact get_set_other _ _ _ _ _ _ h
                  · split
                    · exact get_set_other _ _ _ _ _ _ h
                    · split
                      · exact get_set_other _ _ _ _ _ _ h
                      · split
                        · exact get_set_other _ _ _ _ _ _ h
                        · split
                          · split
                            · exact get_reset_other _ _ _ _ h
                            · exact get_reset_other _ _ _ _ h
                          · rfl

/-! ## Concrete fixtures used by witnesses and counterexamples -/

def envW : Env := fun n =>
  if n = "FAQ_TEXT_R1" then some " hola "
  else if n = "MENU_PDF_URL" then some "um"
  else none

def d1 : FieldData := { date := some "2026-01-10" }
def d2 : FieldData := { d1 with time := some "19:30" }
def d3 : FieldData := { d2 with people := some "4" }
def d4 : FieldData := { d3 with name := some "Ana" }
def d5 : FieldData := { d4 with phone := some "+56911112222" }

example : specValidInput "ASK_DATE" "bad" = false := by decide
example : specValidInput "ASK_NAME" "/start" = true := by decide
example : specValidInput "ASK_PEOPLE" "4" = true := by decide
example : specValidInput "ASK_PEOPLE" "0" = false := by decide

/-! ## Claims -/

/-- C1 (counterexample): the code performs no validation at all.  With a
stored session in stage `ASK_DATE` and empty field set, the inbound text
"bad" fails the spec's date rule (length < 8), yet the session is mutated to
stage `ASK_TIME` with `date = "bad"` instead of being left unchanged. -/
theorem C1_counterexample :
    specValidInput "ASK_DATE" "bad" = false ∧
    get_session "r1" 1 ((handle_update cfgA "r1" 1 "bad"
        (set_session "r1" 1 "ASK_DATE" {} emptySessions)).1)
      = some ⟨"ASK_TIME", { date := some "bad" }⟩ ∧
    (some (Session.mk "ASK_TIME" { date := some "bad" }) : Option Session)
      ≠ some ⟨"ASK_DATE", {}⟩ := by
  decide

/-- C1 (amended): no reservation-flow stage validates its input.  For every
configuration, tenant, conversation, store, and stored session in one of the
five collecting stages, ANY inbound text that is not one of the six
command/button tokens — in particular any text failing the spec's validation
rule for that stage — is stored under the stage's field and the stage
advances exactly one step, with exactly one prompt action; the session is
never left unchanged and no re-prompt occurs. -/
theorem C1_amended (cfg : Cfg) (tenant : String) (chatId : Int) (rawText t : String)
    (st : Sessions) (s : Session)
    (ht : pyStrip rawText = t) (hcmd : t ∉ command_tokens)
    (hs : get_session tenant chatId st = some s) (hflow : s.step ∈ flow_steps) :
    get_session tenant chatId (handle_update cfg tenant chatId rawText st).1
      = some ⟨next_step s.step, store_field s.step s.data t⟩ ∧
    (handle_update cfg tenant chatId rawText st).2
      = [stage_prompt s.step chatId (store_field s.step s.data t)] := by
  have hd := handle_update_dispatch cfg tenant chatId rawText st (ht ▸ hcmd)
  rw [hd, hs, ht]
  simp only [flow_steps, List.mem_cons, List.not_mem_nil, or_false] at hflow
  rcases hflow with h | h | h | h | h <;>
    simp [stage_dispatch, h, next_step, store_field, stage_prompt,
      get_set_same, get_session, set_session]

/-- C1 (witness for the amended theorem): the input "bad" fails the spec's
date rule, yet a session at `ASK_DATE` stores it and advances to `ASK_TIME`
with the time prompt as the single action. -/
theorem C1_witness :
    specValidInput "ASK_DATE" "bad" = false ∧
    get_session "r1" 1 (handle_update cfgA "r1" 1 "bad"
        (set_session "r1" 1 "ASK_DATE" {} emptySessions)).1
      = some ⟨next_step "ASK_DATE", store_field "ASK_DATE" {} "bad"⟩ ∧
    (handle_update cfgA "r1" 1 "bad"
        (set_session "r1" 1 "ASK_DATE" {} emptySessions)).2
      = [stage_prompt "ASK_DATE" 1 (store_field "ASK_DATE" {} "bad")] := by
  refine ⟨by decide, ?_, ?_⟩
  · exact (C1_amended cfgA "r1" 1 "bad" "bad"
      (set_session "r1" 1 "ASK_DATE" {} emptySessions) ⟨"ASK_DATE", {}⟩
      (by decide) (by decide) (by decide) (by decide)).1
  · exact (C1_amended cfgA "r1" 1 "bad" "bad"
      (set_session "r1" 1 "ASK_DATE" {} emptySessions) ⟨"ASK_DATE", {}⟩
      (by decide) (by decide) (by decide) (by decide)).2

/-- C2 (counterexample): in stage `CONFIRM`, the input "hola" — neither one
of the claim's affirmative tokens nor one of its negative tokens — does not
re-prompt with the session unchanged: the code deletes the session and sends
the not-confirmed message.  Likewise the claimed affirmative token "ok" is
not treated as affirmative: it produces no admin notification and also
deletes the session. -/
theorem C2_counterexample :
    (get_session "r1" 1 ((handle_update cfgA "r1" 1 "hola"
        (set_session "r1" 1 "CONFIRM" d5 emptySessions)).1) = none ∧
     (none : Option Session) ≠ some ⟨"CONFIRM", d5⟩) ∧
    ((handle_update cfgA "r1" 1 "ok"
        (set_session "r1" 1 "CONFIRM" d5 emptySessions)).2
      = [.sendMessage 1 "Reserva no confirmada. Si deseas, vuelve a empezar."
          (some main_keyboard)] ∧
     get_session "r1" 1 ((handle_update cfgA "r1" 1 "ok"
        (set_session "r1" 1 "CONFIRM" d5 emptySessions)).1) = none) := by
  decide

/-- C2 (amended): in stage `CONFIRM` the inbound text is stripped and
lowercased and matched against the affirmative tokens "si" and "sí" only;
an affirmative input emits the success acknowledgment plus the admin
notification and deletes the session, while every other input (the claimed
tokens "ok", "confirmar", "no", "cancelar" included) emits exactly one
not-confirmed acknowledgment and deletes the session — there is no re-prompt
that keeps the stage. -/
theorem C2_amended (cfg : Cfg) (tenant : String) (chatId : Int) (rawText t : String)
    (st : Sessions) (s : Session)
    (ht : pyStrip rawText = t) (hcmd : t ∉ command_tokens)
    (hs : get_session tenant chatId st = some s) (hstep : s.step = "CONFIRM") :
    ((pyLower (pyStrip t) = "si" ∨ pyLower (pyStrip t) = "sí") →
      (handle_update cfg tenant chatId rawText st).1 (session_key tenant chatId) = none ∧
      (handle_update cfg tenant chatId rawText st).2
        = [.sendMessage chatId "✅ Reserva confirmada. ¡Gracias!" (some main_keyboard),
           .notifyAdmin (adminReservaText tenant s.data)]) ∧
    (¬ (pyLower (pyStrip t) = "si" ∨ pyLower (pyStrip t) = "sí") →
      (handle_update cfg tenant chatId rawText st).1 (session_key tenant chatId) = none ∧
      (handle_update cfg tenant chatId rawText st).2
        = [.sendMessage chatId "Reserva no confirmada. Si deseas, vuelve a empezar."
            (some main_keyboard)]) := by
  have hd := handle_update_dispatch cfg tenant chatId rawText st (ht ▸ hcmd)
  rw [hd, hs, ht]
  constructor
  · intro haff
    simp [stage_dispatch, hstep, if_pos haff, reset_session, session_key]
  · intro hneg
    simp [stage_dispatch, hstep, if_neg hneg, reset_session, session_key]

/-- C2 (witness for the amended theorem): with a concrete `CONFIRM` session,
"SI" is affirmative (confirmation plus admin notification, session deleted)
and "ok" is not (not-confirmed message, session deleted). -/
theorem C2_witness :
    ((handle_update cfgA "r1" 1 "SI"
        (set_session "r1" 1 "CONFIRM" d5 emptySessions)).1 (session_key "r1" 1) = none ∧
     (handle_update cfgA "r1" 1 "SI"
        (set_session "r1" 1 "CONFIRM" d5 emptySessions)).2
       = [.sendMessage 1 "✅ Reserva confirmada. ¡Gracias!" (some main_keyboard),
          .notifyAdmin (adminReservaText "r1" d5)]) ∧
    ((handle_update cfgA "r1" 1 "ok"
        (set_session "r1" 1 "CONFIRM" d5 emptySessions)).1 (session_key "r1" 1) = none ∧
     (handle_update cfgA "r1" 1 "ok"
        (set_session "r1" 1 "CONFIRM" d5 emptySessions)).2
       = [.sendMessage 1 "Reserva no confirmada. Si deseas, vuelve a empezar."
           (some main_keyboard)]) := by
  refine ⟨?_, ?_⟩
  · exact (C2_amended cfgA "r1" 1 "SI" "SI"
      (set_session "r1" 1 "CONFIRM" d5 emptySessions) ⟨"CONFIRM", d5⟩
      (by decide) (by decide) (by decide) rfl).1 (by decide)
  · exact (C2_amended cfgA "r1" 1 "ok" "ok"
      (set_session "r1" 1 "CONFIRM" d5 emptySessions) ⟨"CONFIRM", d5⟩
      (by decide) (by decide) (by decide) rfl).2 (by decide)

/-- C3 (counterexample): the plain text "reservar" is not the reserve
trigger — the code compares the inbound text only against the exact button
label `BTN_RESERVAR` ("📅 Reservar").  The claim's literal input sequence
therefore never starts the flow: all seven inputs fall through to the
no-session menu prompt and no NotifyAdmin action is ever produced. -/
theorem C3_counterexample :
    ((run_texts cfgA "r1" 1
        ["reservar", "2026-01-10", "19:30", "4", "Ana", "+56911112222", "si"]
        emptySessions).2.filter is_notify) = [] ∧
    (run_texts cfgA "r1" 1
        ["reservar", "2026-01-10", "19:30", "4", "Ana", "+56911112222", "si"]
        emptySessions).2
      = List.replicate 7 (.sendMessage 1 "Elige una opción:" (some main_keyboard)) := by
  decide

/-- C3 (amended): for every session in the `Confirm` stage, an affirmative
input ("si"/"sí" after stripping and lowercasing) deletes the session and
emits exactly one NotifyAdmin action carrying all five collected fields; the
scenario holds with the reserve button label "📅 Reservar" as first input
instead of the plain text "reservar": the sequence
`["📅 Reservar","2026-01-10","19:30","4","Ana","+56911112222","si"]` from a
fresh session ends with the session deleted and exactly one NotifyAdmin
action containing date 2026-01-10, time 19:30, people 4, name Ana and phone
+56911112222. -/
theorem C3_amended :
    (∀ (cfg : Cfg) (tenant : String) (chatId : Int) (rawText t : String)
      (st : Sessions) (s : Session),
      pyStrip rawText = t → t ∉ command_tokens →
      get_session tenant chatId st = some s → s.step = "CONFIRM" →
      (pyLower (pyStrip t) = "si" ∨ pyLower (pyStrip t) = "sí") →
      get_session tenant chatId (handle_update cfg tenant chatId rawText st).1 = none ∧
      (handle_update cfg tenant chatId rawText st).2
        = [.sendMessage chatId "✅ Reserva confirmada. ¡Gracias!" (some main_keyboard),
           .notifyAdmin (adminReservaText tenant s.data)] ∧
      ((handle_update cfg tenant chatId rawText st).2.filter is_notify)
        = [.notifyAdmin (adminReservaText tenant s.data)]) ∧
    (get_session "r1" 1
        (run_texts cfgA "r1" 1
          [BTN_RESERVAR, "2026-01-10", "19:30", "4", "Ana", "+56911112222", "si"]
          emptySessions).1 = none ∧
     ((run_texts cfgA "r1" 1
          [BTN_RESERVAR, "2026-01-10", "19:30", "4", "Ana", "+56911112222", "si"]
          emptySessions).2.filter is_notify)
       = [.notifyAdmin
           "✅ Nueva reserva [R1]\n2026-01-10 19:30 - 4 pax\nNombre: Ana - Tel: +56911112222"]) := by
  constructor
  · intro cfg tenant chatId rawText t st s ht hcmd hs hstep haff
    have hd := handle_update_dispatch cfg tenant chatId rawText st (ht ▸ hcmd)
    rw [hd, hs, ht]
    simp [stage_dispatch, hstep, if_pos haff, get_session, reset_session, is_notify]
  · constructor
    · decide
    · decide

/-- C3 (witness for the amended theorem's universal part): a concrete
`CONFIRM` session with the five collected fields, on input "si", is deleted
and yields exactly one NotifyAdmin action with all five fields. -/
theorem C3_witness :
    get_session "r1" 1 (handle_update cfgA "r1" 1 "si"
        (set_session "r1" 1 "CONFIRM" d5 emptySessions)).1 = none ∧
    (handle_update cfgA "r1" 1 "si"
        (set_session "r1" 1 "CONFIRM" d5 emptySessions)).2
      = [.sendMessage 1 "✅ Reserva confirmada. ¡Gracias!" (some main_keyboard),
         .notifyAdmin (adminReservaText "r1" d5)] := by
  have h := C3_amended.1 cfgA "r1" 1 "si" "si"
    (set_session "r1" 1 "CONFIRM" d5 emptySessions) ⟨"CONFIRM", d5⟩
    (by decide) (by decide) (by decide) rfl (by decide)
  exact ⟨h.1, h.2.1⟩

/-- C4 (counterexample): at stage `ASK_NAME` the input "/start" passes the
spec's name rule (trimmed length ≥ 2), yet it does not advance the session
one step with the value stored: the state-independent start intercept fires
first and deletes the session. -/
theorem C4_counterexample :
    specValidInput "ASK_NAME" "/start" = true ∧
    get_session "r1" 1 ((handle_update cfgA "r1" 1 "/start"
        (set_session "r1" 1 "ASK_NAME" d3 emptySessions)).1) = none ∧
    (none : Option Session)
      ≠ some ⟨next_step "ASK_NAME", store_field "ASK_NAME" d3 "/start"⟩ := by
  decide

/-- C4 (amended): for every reservation-flow stage, an input that passes
that stage's validation rule AND is not one of the six state-independent
command/button tokens advances the stored session exactly one step in the
fixed sequence and persists the (stripped) value under the corresponding
field, emitting exactly one prompt; on `ASK_PHONE` the new stage is
`CONFIRM` and the prompt is the summary of all five fields plus the yes/no
request. -/
theorem C4_amended (cfg : Cfg) (tenant : String) (chatId : Int) (rawText t : String)
    (st : Sessions) (s : Session)
    (ht : pyStrip rawText = t) (hcmd : t ∉ command_tokens)
    (hs : get_session tenant chatId st = some s) (hflow : s.step ∈ flow_steps)
    (_hvalid : specValidInput s.step t = true) :
    get_session tenant chatId (handle_update cfg tenant chatId rawText st).1
      = some ⟨next_step s.step, store_field s.step s.data t⟩ ∧
    (handle_update cfg tenant chatId rawText st).2
      = [stage_prompt s.step chatId (store_field s.step s.data t)] := by
  have hd := handle_update_dispatch cfg tenant chatId rawText st (ht ▸ hcmd)
  rw [hd, hs, ht]
  simp only [flow_steps, List.mem_cons, List.not_mem_nil, or_false] at hflow
  rcases hflow with h | h | h | h | h <;>
    simp [stage_dispatch, h, next_step, store_field, stage_prompt,
      get_set_same, get_session, set_session]

/-- C4 (witness): a concrete `ASK_DATE` session on the valid date
"2026-01-10" advances to `ASK_TIME` with the date stored and the time
prompt emitted. -/
theorem C4_witness :
    get_session "r1" 1 (handle_update cfgA "r1" 1 "2026-01-10"
        (set_session "r1" 1 "ASK_DATE" {} emptySessions)).1
      = some ⟨next_step "ASK_DATE", store_field "ASK_DATE" {} "2026-01-10"⟩ ∧
    (handle_update cfgA "r1" 1 "2026-01-10"
        (set_session "r1" 1 "ASK_DATE" {} emptySessions)).2
      = [stage_prompt "ASK_DATE" 1 (store_field "ASK_DATE" {} "2026-01-10")] := by
  exact C4_amended cfgA "r1" 1 "2026-01-10" "2026-01-10"
    (set_session "r1" 1 "ASK_DATE" {} emptySessions) ⟨"ASK_DATE", {}⟩
    (by decide) (by decide) (by decide) (by decide) (by decide)

/-- C5 (counterexample): handling "/start" emits exactly one message (the
greeting text, which itself carries the option prompt, with the main menu
keyboard attached), not the claimed two separate messages. -/
theorem C5_counterexample :
    (handle_update cfgA "r1" 1 "/start" emptySessions).2.length = 1 ∧
    (handle_update cfgA "r1" 1 "/start" emptySessions).2.length ≠ 2 := by
  decide

/-- C5 (amended): from every current state, "/start" resets the session
(the conversation returns to Idle) and emits exactly one deterministic
message — the greeting-plus-option prompt with the top-level menu keyboard —
and repeating "/start" is idempotent: the same resulting store and the same
single message. -/
theorem C5_amended (cfg : Cfg) (tenant : String) (chatId : Int) (st : Sessions) :
    handle_update cfg tenant chatId "/start" st
      = (reset_session tenant chatId st,
         [.sendMessage chatId startText (some main_keyboard)]) ∧
    (handle_update cfg tenant chatId "/start"
        ((handle_update cfg tenant chatId "/start" st).1)).2
      = (handle_update cfg tenant chatId "/start" st).2 ∧
    ∀ k, (handle_update cfg tenant chatId "/start"
        ((handle_update cfg tenant chatId "/start" st).1)).1 k
      = (handle_update cfg tenant chatId "/start" st).1 k := by
  have h0 : pyStrip "/start" = "/start" := by decide
  have h1 : handle_update cfg tenant chatId "/start" st
      = (reset_session tenant chatId st,
         [.sendMessage chatId startText (some main_keyboard)]) := by
    simp [handle_update, h0]
  refine ⟨h1, ?_, ?_⟩
  · have h2 : handle_update cfg tenant chatId "/start"
        ((handle_update cfg tenant chatId "/start" st).1)
        = (reset_session tenant chatId ((handle_update cfg tenant chatId "/start" st).1),
           [.sendMessage chatId startText (some main_keyboard)]) := by
      simp [handle_update, h0]
    rw [h2, h1]
  · intro k
    have h2 : handle_update cfg tenant chatId "/start"
        ((handle_update cfg tenant chatId "/start" st).1)
        = (reset_session tenant chatId ((handle_update cfg tenant chatId "/start" st).1),
           [.sendMessage chatId startText (some main_keyboard)]) := by
      simp [handle_update, h0]
    rw [h2, h1]
    by_cases hk : k = session_key tenant chatId <;> simp [reset_session, hk]

/-- C6 (counterexample): the start and cancel commands are NOT the only
state-independent intercepts.  With an active session in stage `ASK_NAME`,
the menu button label "📄 Ver menú" is handled as a menu choice — the menu
document and follow-up message are sent and the session is left in
`ASK_NAME` — instead of being stored as the name and advancing the stage as
the claim asserts. -/
theorem C6_counterexample :
    get_session "r1" 1 ((handle_update cfgA "r1" 1 BTN_MENU
        (set_session "r1" 1 "ASK_NAME" d3 emptySessions)).1)
      = some ⟨"ASK_NAME", d3⟩ ∧
    (handle_update cfgA "r1" 1 BTN_MENU
        (set_session "r1" 1 "ASK_NAME" d3 emptySessions)).2
      = [.sendDocument 1 cfgA.menuPdfUrl "Aquí tienes el menú 📄",
         .sendMessage 1 "¿Deseas algo más?" (some main_keyboard)] ∧
    (some (Session.mk "ASK_NAME" d3) : Option Session)
      ≠ some ⟨next_step "ASK_NAME", store_field "ASK_NAME" d3 BTN_MENU⟩ := by
  decide

/-- C6 (amended): the state-independent intercepts evaluated before stage
dispatch are the start command and the five button labels (menu, FAQ, agent,
reserve, cancel), in that order.  The cancel button from any stage
(including Idle) deletes any stored session and emits the cancellation
acknowledgment with the top-level menu; every input that is none of the six
tokens is dispatched by the stored session's current stage, and with no
session falls back to the menu prompt. -/
theorem C6_amended :
    (∀ (cfg : Cfg) (tenant : String) (chatId : Int) (st : Sessions),
      handle_update cfg tenant chatId BTN_CANCEL st
        = (reset_session tenant chatId st,
           [.sendMessage chatId "Reserva cancelada. ¿Qué deseas hacer ahora?"
             (some main_keyboard)])) ∧
    (∀ (cfg : Cfg) (tenant : String) (chatId : Int) (rawText t : String)
      (st : Sessions) (s : Session),
      pyStrip rawText = t → t ∉ command_tokens →
      get_session tenant chatId st = some s →
      handle_update cfg tenant chatId rawText st = stage_dispatch tenant chatId t s st) ∧
    (∀ (cfg : Cfg) (tenant : String) (chatId : Int) (rawText t : String)
      (st : Sessions),
      pyStrip rawText = t → t ∉ command_tokens →
      get_session tenant chatId st = none →
      handle_update cfg tenant chatId rawText st
        = (st, [.sendMessage chatId "Elige una opción:" (some main_keyboard)])) := by
  refine ⟨?_, ?_, ?_⟩
  · intro cfg tenant chatId st
    have h0 : pyStrip "\u2716\ufe0f Cancelar" = "\u2716\ufe0f Cancelar" := by decide
    simp [handle_update, BTN_CANCEL, BTN_MENU, BTN_FAQ, BTN_AGENT, BTN_RESERVAR, h0]
  · intro cfg tenant chatId rawText t st s ht hcmd hs
    have hd := handle_update_dispatch cfg tenant chatId rawText st (ht ▸ hcmd)
    rw [hd, hs, ht]
  · intro cfg tenant chatId rawText t st ht hcmd hs
    have hd := handle_update_dispatch cfg tenant chatId rawText st (ht ▸ hcmd)
    rw [hd, hs]

/-- C6 (witness for the amended theorem): mid-flow at `ASK_NAME`, the
non-token text "Ana" goes to stage dispatch; with no session, the non-token
text "hola" falls back to the menu prompt; the cancel button from `ASK_NAME`
resets the session. -/
theorem C6_witness :
    handle_update cfgA "r1" 1 "Ana" (set_session "r1" 1 "ASK_NAME" d3 emptySessions)
      = stage_dispatch "r1" 1 "Ana" ⟨"ASK_NAME", d3⟩
          (set_session "r1" 1 "ASK_NAME" d3 emptySessions) ∧
    handle_update cfgA "r1" 1 "hola" emptySessions
      = (emptySessions, [.sendMessage 1 "Elige una opción:" (some main_keyboard)]) ∧
    handle_update cfgA "r1" 1 BTN_CANCEL (set_session "r1" 1 "ASK_NAME" d3 emptySessions)
      = (reset_session "r1" 1 (set_session "r1" 1 "ASK_NAME" d3 emptySessions),
         [.sendMessage 1 "Reserva cancelada. ¿Qué deseas hacer ahora?"
           (some main_keyboard)]) := by
  refine ⟨?_, ?_, ?_⟩
  · exact C6_amended.2.1 cfgA "r1" 1 "Ana" "Ana"
      (set_session "r1" 1 "ASK_NAME" d3 emptySessions) ⟨"ASK_NAME", d3⟩
      (by decide) (by decide) (by decide)
  · exact C6_amended.2.2 cfgA "r1" 1 "hola" "hola" emptySessions
      (by decide) (by decide) rfl
  · exact C6_amended.1 cfgA "r1" 1 (set_session "r1" 1 "ASK_NAME" d3 emptySessions)

/-- A store write by `set_session` read back: either the written session at
the written key, or the old store's entry. -/
theorem set_session_eq_some (tenant : String) (chatId : Int) (step : String)
    (d : FieldData) (st : Sessions) (k : SessionKey) (s : Session)
    (h : set_session tenant chatId step d st k = some s) :
    s = ⟨step, d⟩ ∨ st k = some s := by
  by_cases hk : k = session_key tenant chatId
  · left
    simp only [set_session, if_pos hk] at h
    exact (Option.some.inj h).symm
  · right
    simpa only [set_session, if_neg hk] using h

/-- A store entry surviving `reset_session` was already in the old store. -/
theorem reset_session_eq_some (tenant : String) (chatId : Int) (st : Sessions)
    (k : SessionKey) (s : Session)
    (h : reset_session tenant chatId st k = some s) : st k = some s := by
  by_cases hk : k = session_key tenant chatId
  · simp only [reset_session, if_pos hk] at h
    exact absurd h (by simp)
  · simpa only [reset_session, if_neg hk] using h

/-- Handling an update reads the store only at the update's own key: two
stores that agree there produce the same actions and the same resulting own
session. -/
theorem handle_update_reads (cfg : Cfg) (tenant : String) (chatId : Int)
    (rawText : String) (st st' : Sessions)
    (h : st (session_key tenant chatId) = st' (session_key tenant chatId)) :
    (handle_update cfg tenant chatId rawText st).2
      = (handle_update cfg tenant chatId rawText st').2 ∧
    (handle_update cfg tenant chatId rawText st).1 (session_key tenant chatId)
      = (handle_update cfg tenant chatId rawText st').1 (session_key tenant chatId) := by
  simp only [handle_update]
  split_ifs
  · exact ⟨rfl, by simp [reset_session]⟩
  · exact ⟨rfl, h⟩
  · exact ⟨rfl, h⟩
  · exact ⟨rfl, h⟩
  · exact ⟨rfl, h⟩
  · exact ⟨rfl, by simp [set_session]⟩
  · exact ⟨rfl, by simp [reset_session]⟩
  · have hg : get_session tenant chatId st = get_session tenant chatId st' := h
    rw [hg]
    cases hc : get_session tenant chatId st' with
    | none => exact ⟨rfl, h⟩
    | some s =>
      simp only [stage_dispatch]
      split_ifs
      · exact ⟨rfl, by simp [set_session]⟩
      · exact ⟨rfl, by simp [set_session]⟩
      · exact ⟨rfl, by simp [set_session]⟩
      · exact ⟨rfl, by simp [set_session]⟩
      · exact ⟨rfl, by simp [set_session]⟩
      · exact ⟨rfl, by simp [reset_session]⟩
      · exact ⟨rfl, by simp [reset_session]⟩
      · exact ⟨rfl, h⟩

/-- C7: sessions of distinct tenants are fully isolated even when their
conversation ids coincide.  Store writes (`set_session`, `reset_session`)
and a whole handled update for tenant B never change what tenant A reads at
any conversation id, and handling an update for (B, id) reads the store only
at (B, id) — stores differing arbitrarily on other keys yield the same
actions and the same resulting (B, id) session. -/
theorem C7_isolation :
    (∀ (tenantA tenantB : String) (idA idB : Int) (step : String) (d : FieldData)
      (st : Sessions), tenantA ≠ tenantB →
      get_session tenantA idA (set_session tenantB idB step d st)
        = get_session tenantA idA st) ∧
    (∀ (tenantA tenantB : String) (idA idB : Int) (st : Sessions),
      tenantA ≠ tenantB →
      get_session tenantA idA (reset_session tenantB idB st)
        = get_session tenantA idA st) ∧
    (∀ (cfg : Cfg) (tenantA tenantB : String) (idA idB : Int) (rawText : String)
      (st : Sessions), tenantA ≠ tenantB →
      get_session tenantA idA (handle_update cfg tenantB idB rawText st).1
        = get_session tenantA idA st) ∧
    (∀ (cfg : Cfg) (tenantB : String) (idB : Int) (rawText : String)
      (st st' : Sessions),
      get_session tenantB idB st = get_session tenantB idB st' →
      (handle_update cfg tenantB idB rawText st).2
        = (handle_update cfg tenantB idB rawText st').2 ∧
      get_session tenantB idB (handle_update cfg tenantB idB rawText st).1
        = get_session tenantB idB (handle_update cfg tenantB idB rawText st').1) := by
  refine ⟨?_, ?_, ?_, ?_⟩
  · intro tenantA tenantB idA idB step d st hne
    have hk : session_key tenantA idA ≠ session_key tenantB idB :=
      fun hEq => hne (congrArg Prod.fst hEq)
    simp only [get_session]
    exact get_set_other _ _ _ _ _ _ hk
  · intro tenantA tenantB idA idB st hne
    have hk : session_key tenantA idA ≠ session_key tenantB idB :=
      fun hEq => hne (congrArg Prod.fst hEq)
    simp only [get_session]
    exact get_reset_other _ _ _ _ hk
  · intro cfg tenantA tenantB idA idB rawText st hne
    have hk : session_key tenantA idA ≠ session_key tenantB idB :=
      fun hEq => hne (congrArg Prod.fst hEq)
    simp only [get_session]
    exact handle_update_local _ _ _ _ _ _ hk
  · intro cfg tenantB idB rawText st st' hg
    exact handle_update_reads cfg tenantB idB rawText st st' hg

/-- C7 (witness): tenants r1 and r2 sharing conversation id 42 — starting a
reservation for (r2, 42) leaves the session of (r1, 42) untouched. -/
theorem C7_witness :
    get_session "r1" 42 ((handle_update cfgA "r2" 42 BTN_RESERVAR
        (set_session "r1" 42 "ASK_DATE" {} emptySessions)).1)
      = get_session "r1" 42 (set_session "r1" 42 "ASK_DATE" {} emptySessions) := by
  exact C7_isolation.2.2.1 cfgA "r1" "r2" 42 42 BTN_RESERVAR
    (set_session "r1" 42 "ASK_DATE" {} emptySessions) (by decide)

/-- C8: configuration values resolve with the two-level fallback (the
tenant-suffixed variable first, then the plain variable, then the supplied
default, never a failure), while a missing credential is a hard error raised
by `telegram_api` and caught by `send_message`, which drops the outbound
call into a log entry instead of crashing the request. -/
theorem C8_config :
    (∀ (env : Env) (name tenant default v : String),
      env (name ++ "_" ++ pyUpper tenant) = some v →
      get_env env name tenant default = pyStrip v) ∧
    (∀ (env : Env) (name tenant default v : String),
      env (name ++ "_" ++ pyUpper tenant) = none → env name = some v →
      get_env env name tenant default = pyStrip v) ∧
    (∀ (env : Env) (name tenant default : String),
      env (name ++ "_" ++ pyUpper tenant) = none → env name = none →
      get_env env name tenant default = pyStrip default) ∧
    (∀ (deliver : Bool) (cfg : Cfg), cfg.token = "" →
      telegram_api deliver cfg
        = .error ("Missing TELEGRAM_BOT_TOKEN_" ++ pyUpper cfg.tenant) ∧
      send_message deliver cfg
        = .ok (.logged ("[ERROR] sendMessage (" ++ cfg.tenant ++ "): " ++
            ("Missing TELEGRAM_BOT_TOKEN_" ++ pyUpper cfg.tenant)))) := by
  refine ⟨?_, ?_, ?_, ?_⟩
  · intro env name tenant default v h
    simp [get_env, osGetenv, h]
  · intro env name tenant default v h1 h2
    simp [get_env, osGetenv, h1, h2]
  · intro env name tenant default h1 h2
    simp [get_env, osGetenv, h1, h2]
  · intro deliver cfg h
    have ht : telegram_api deliver cfg
        = .error ("Missing TELEGRAM_BOT_TOKEN_" ++ pyUpper cfg.tenant) := by
      simp [telegram_api, require_token, h]
    exact ⟨ht, by simp [send_message, ht]⟩

/-- C8 (witness): a concrete environment exercising all three fallback
levels, and a tenant config with an empty credential whose send is dropped
into a log entry. -/
theorem C8_witness :
    get_env envW "FAQ_TEXT" "r1" "" = "hola" ∧
    get_env envW "MENU_PDF_URL" "r1" "" = "um" ∧
    get_env envW "ADMIN_CHAT_ID" "r1" "" = "" ∧
    send_message true { cfgA with token := "" }
      = .ok (.logged ("[ERROR] sendMessage (r1): " ++
          "Missing TELEGRAM_BOT_TOKEN_R1")) := by
  refine ⟨?_, ?_, ?_, ?_⟩
  · exact C8_config.1 envW "FAQ_TEXT" "r1" "" " hola " (by decide)
  · exact C8_config.2.1 envW "MENU_PDF_URL" "r1" "" "um" (by decide) (by decide)
  · exact C8_config.2.2.1 envW "ADMIN_CHAT_ID" "r1" "" (by decide) (by decide)
  · exact ((C8_config.2.2.2 true { cfgA with token := "" } rfl).2).trans rfl

/-- C9: dispatch of outbound actions is best-effort.  `send_message`,
`send_document` and `notify_admin` never surface an error (every failure of
the underlying `telegram_api` call is converted to a log entry or silently
swallowed), the webhook's resulting session store and its acknowledgment are
identical under any two delivery oracles, and a concrete network failure
yields the logged error rather than a raised one. -/
theorem C9_best_effort :
    (∀ (deliver : Bool) (cfg : Cfg),
      (∃ r, send_message deliver cfg = .ok r) ∧
      (∃ r, send_document deliver cfg = .ok r) ∧
      (∃ r, notify_admin deliver cfg = .ok r)) ∧
    (∀ (env : Env) (o1 o2 : Nat → Bool) (tenant : String) (chatId : Int)
      (rawText : String) (st : Sessions),
      (webhook env o1 tenant chatId rawText st).1
        = (webhook env o2 tenant chatId rawText st).1 ∧
      (webhook env o1 tenant chatId rawText st).2.2
        = (webhook env o2 tenant chatId rawText st).2.2) ∧
    send_message false cfgA = .ok (.logged "[ERROR] sendMessage (r1): network error") := by
  refine ⟨?_, ?_, rfl⟩
  · intro deliver cfg
    refine ⟨?_, ?_, ?_⟩
    · cases h : telegram_api deliver cfg <;> simp [send_message, h]
    · cases h : telegram_api deliver cfg <;> simp [send_document, h]
    · simp only [notify_admin]
      split
      · exact ⟨_, rfl⟩
      · split
        · exact ⟨_, rfl⟩
        · split
          · exact ⟨_, rfl⟩
          · exact ⟨_, rfl⟩
  · intro env o1 o2 tenant chatId rawText st
    exact ⟨rfl, rfl⟩

/-- Stage dispatch preserves the per-stage field-set invariant. -/
theorem fieldsOk_dispatch (tenant : String) (chatId : Int) (text : String)
    (s0 : Session) (st : Sessions) (h0 : fieldsOk s0 = true)
    (hst : ∀ k s, st k = some s → fieldsOk s = true) :
    ∀ k s, (stage_dispatch tenant chatId text s0 st).1 k = some s →
      fieldsOk s = true := by
  intro k s hk
  simp only [stage_dispatch] at hk
  split at hk
  · rename_i hstep
    rcases set_session_eq_some _ _ _ _ _ _ _ hk with rfl | hold
    · simp [fieldsOk, hstep] at h0
      simp [fieldsOk, h0]
    · exact hst k s hold
  · split at hk
    · rename_i hstep
      rcases set_session_eq_some _ _ _ _ _ _ _ hk with rfl | hold
      · simp [fieldsOk, hstep] at h0
        simp [fieldsOk, h0]
      · exact hst k s hold
    · split at hk
      · rename_i hstep
        rcases set_session_eq_some _ _ _ _ _ _ _ hk with rfl | hold
        · simp [fieldsOk, hstep] at h0
          simp [fieldsOk, h0]
        · exact hst k s hold
      · split at hk
        · rename_i hstep
          rcases set_session_eq_some _ _ _ _ _ _ _ hk with rfl | hold
          · simp [fieldsOk, hstep] at h0
            simp [fieldsOk, h0]
          · exact hst k s hold
        · split at hk
          · rename_i hstep
            rcases set_session_eq_some _ _ _ _ _ _ _ hk with rfl | hold
            · simp [fieldsOk, hstep] at h0
              simp [fieldsOk, h0]
            · exact hst k s hold
          · split at hk
            · split at hk
              · exact hst k s (reset_session_eq_some _ _ _ _ _ hk)
              · exact hst k s (reset_session_eq_some _ _ _ _ _ hk)
            · exact hst k s hk

/-- One handled update preserves the per-stage field-set invariant of every
stored session. -/
theorem fieldsOk_preserved (cfg : Cfg) (tenant : String) (chatId : Int)
    (rawText : String) (st : Sessions)
    (hst : ∀ k s, st k = some s → fieldsOk s = true) :
    ∀ k s, (handle_update cfg tenant chatId rawText st).1 k = some s →
      fieldsOk s = true := by
  intro k s hk
  simp only [handle_update] at hk
  split at hk
  · exact hst k s (reset_session_eq_some _ _ _ _ _ hk)
  · split at hk
    · split at hk
      · exact hst k s hk
      · exact hst k s hk
    · split at hk
      · exact hst k s hk
      · split at hk
        · exact hst k s hk
        · split at hk
          · rcases set_session_eq_some _ _ _ _ _ _ _ hk with rfl | hold
            · simp [fieldsOk]
            · exact hst k s hold
          · split at hk
            · exact hst k s (reset_session_eq_some _ _ _ _ _ hk)
            · split at hk
              · exact hst k s hk
              · rename_i s0 heq
                exact fieldsOk_dispatch tenant chatId (pyStrip rawText) s0 st
                  (hst _ s0 heq) hst k s hk

/-- C10: every session reachable by handling any sequence of updates from a
fresh store is in one of the six stages and its field set holds exactly the
fields of the stages already completed (all five at `CONFIRM`), so the
confirmation summary and the admin notification never read an absent
field. -/
theorem C10_invariant (us : List Update) (k : SessionKey) (s : Session)
    (h : run_updates us k = some s) : fieldsOk s = true := by
  suffices H : ∀ (l : List Update) (st : Sessions),
      (∀ k s, st k = some s → fieldsOk s = true) →
      ∀ k s, (l.foldl (fun acc u =>
        (handle_update u.cfg u.tenant u.chatId u.text acc).1) st) k = some s →
        fieldsOk s = true by
    exact H us emptySessions (fun k s hks => by simp [emptySessions] at hks) k s h
  intro l
  induction l with
  | nil => exact fun st hst => hst
  | cons u t ih =>
    intro st hst
    exact ih _ (fieldsOk_preserved u.cfg u.tenant u.chatId u.text st hst)

/-- C10 (witness): after the reserve button and a date, the stored session
is at `ASK_TIME` with exactly the date field collected, and it satisfies the
invariant. -/
theorem C10_witness : fieldsOk ⟨"ASK_TIME", d1⟩ = true := by
  have h : run_updates
      [⟨cfgA, "r1", 1, BTN_RESERVAR⟩, ⟨cfgA, "r1", 1, "2026-01-10"⟩]
      (session_key "r1" 1) = some ⟨"ASK_TIME", d1⟩ := by decide
  exact C10_invariant _ _ _ h

end Reservas
